import Mathlib

/-
  Verification of the autotune-app profile reconciliation pipeline.

  Shallow embedding of the Python sources:
    src/app/models/nightscout.py   (pydantic data models)
    src/app/models/autotune.py     (pydantic data models)
    src/app/services/autotune_service.py   (apply_recommendations)
    src/app/services/nightscout_service.py (get_historical_data, sync_profile)
    src/app/clients/autotune_client.py     (run_autotune)
    src/app/clients/nightscout_client.py   (get_profiles, update_profile)

  Modelling conventions:
  - Python float fields are modelled as rationals. The embedded code performs no
    floating-point arithmetic on them: it only copies, assigns and compares them,
    so the rational model is exact for all properties proved here.
  - Python int fields are modelled as Int (arbitrary precision in Python as well).
  - pydantic validation of a raw record is modelled as a function from a record of
    optional fields to Except: a missing required field or a violated numeric bound
    is an error, mirroring the field constraints declared in the models.
  - In-place mutation (the reconciler mutates entry objects of a deep copy) is
    modelled twice: once with plain value semantics (apply_recommendations), and
    once against an explicit heap of mutable cells (applyRecommendationsHeap) so
    that the no-mutation / no-aliasing guarantee can be stated and proved.
-/

set_option autoImplicit false

/-! ## Data models: src/app/models/nightscout.py -/

/-- BasalScheduleEntry: time "HH:MM", value ge 0 (U/hr), timeAsSeconds ge 0. -/
structure BasalScheduleEntry where
  time : String
  value : ℚ
  timeAsSeconds : Int
deriving DecidableEq

/-- CarbRatioEntry: time "HH:MM", value gt 0 (g/U), timeAsSeconds ge 0. -/
structure CarbRatioEntry where
  time : String
  value : ℚ
  timeAsSeconds : Int
deriving DecidableEq

/-- SensitivityEntry: time "HH:MM", value gt 0 (mg/dL per U), timeAsSeconds ge 0. -/
structure SensitivityEntry where
  time : String
  value : ℚ
  timeAsSeconds : Int
deriving DecidableEq

/-- TargetEntry: time, value gt 0, low gt 0, high gt 0, timeAsSeconds ge 0. -/
structure TargetEntry where
  time : String
  value : ℚ
  low : ℚ
  high : ℚ
  timeAsSeconds : Int
deriving DecidableEq

/-- ProfileStore: an individual profile within a profile store. -/
structure ProfileStore where
  dia : ℚ
  carbratio : List CarbRatioEntry
  sens : List SensitivityEntry
  basal : List BasalScheduleEntry
  target_low : List TargetEntry
  target_high : List TargetEntry
  timezone : String
  units : String
deriving DecidableEq

/-! ## Data models: src/app/models/autotune.py -/

/-- AutotuneBasalEntry: start "HH:MM:SS", minutes ge 0, rate ge 0. -/
structure AutotuneBasalEntry where
  start : String
  minutes : Int
  rate : ℚ
deriving DecidableEq

/-- AutotuneResult: basalprofile, carb_ratio gt 0, sens gt 0, optional dia gt 0. -/
structure AutotuneResult where
  basalprofile : List AutotuneBasalEntry
  carb_ratio : ℚ
  sens : ℚ
  dia : Option ℚ
deriving DecidableEq

/-- AutotuneRecommendations: result plus provenance metadata. -/
structure AutotuneRecommendations where
  result : AutotuneResult
  profile_name : String
  analysis_date : String
  days_analyzed : Int
deriving DecidableEq

/-! ## Python string primitives used by the reconciler

The core String.splitOn and String.toInt? are defined by well-founded recursion
on byte positions and do not reduce inside the kernel, so the two Python string
primitives the reconciler uses are embedded directly over character lists. -/

/-- Python str.split(sep) over the character list: splits on every occurrence of
the separator; a string with no separator yields a single part. -/
def pySplitChars (sep : Char) : List Char → List (List Char)
  | [] => [[]]
  | c :: rest =>
    if c = sep then [] :: pySplitChars sep rest
    else
      match pySplitChars sep rest with
      | [] => [[c]]
      | part :: parts => (c :: part) :: parts

/-- Python str.split(sep) on a String. -/
def pySplit (s : String) (sep : Char) : List String :=
  (pySplitChars sep s.toList).map (fun cs => String.mk cs)

/-- Accumulator loop for parsing a run of decimal digits. -/
def digitsToNatAux (acc : Nat) : List Char → Option Nat
  | [] => some acc
  | c :: rest =>
    if c.isDigit then digitsToNatAux (acc * 10 + (c.toNat - 48)) rest else none

/-- Python int(s) restricted to non-empty unsigned digit strings (the inputs it
receives here are the "HH" and "MM" components of a schedule time, which are
digit strings; on anything else Python int() raises, modelled as none). -/
def pyInt? (s : String) : Option Int :=
  match s.toList with
  | [] => none
  | cs => (digitsToNatAux 0 cs).map Int.ofNat

/-! ## Profile reconciler: AutotuneService.apply_recommendations
    (src/app/services/autotune_service.py, lines 84-146), value semantics. -/

/-- One iteration of the basal-conversion loop body (autotune_service.py lines
124-138): split start on ":", truncate to "HH:MM" by keeping the first two
parts, recompute seconds from midnight as hours*3600 + minutes*60 from the
truncated parts, take the rate as the value. Python raises IndexError when the
split has fewer than two parts and ValueError when a part is not an integer
literal; both are modelled as none. -/
def convert_basal_entry (basal_entry : AutotuneBasalEntry) : Option BasalScheduleEntry :=
  match pySplit basal_entry.start ':' with
  | p0 :: p1 :: _ =>
    match pyInt? p0, pyInt? p1 with
    | some hours, some minutes =>
      some { time := p0 ++ ":" ++ p1
             value := basal_entry.rate
             timeAsSeconds := hours * 3600 + minutes * 60 }
    | _, _ => none
  | _ => none

/-- Embedding of AutotuneService.apply_recommendations, value semantics. The Python code deep
copies the profile and mutates the copy; with immutable values the deep copy is
the value itself and each mutation loop is a map. The guard
`if result.basalprofile:` is Python list truthiness (non-empty); the guard
`if result.dia:` is Python float/None truthiness (present and non-zero).
Returns none when the basal conversion raises (malformed start string). -/
def apply_recommendations (profile : ProfileStore)
    (recommendations : AutotuneRecommendations) : Option ProfileStore :=
  (if !recommendations.result.basalprofile.isEmpty
      then recommendations.result.basalprofile.mapM convert_basal_entry
      else some profile.basal).map fun basal1 =>
    { profile with
        carbratio := profile.carbratio.map
          (fun e => { e with value := recommendations.result.carb_ratio })
        sens := profile.sens.map
          (fun e => { e with value := recommendations.result.sens })
        basal := basal1
        dia := match recommendations.result.dia with
               | some d => if d ≠ 0 then d else profile.dia
               | none => profile.dia }

/-! ## Concrete example values (mirroring the repository test fixtures) -/

/-- A concrete valid ProfileStore, mirroring the mock_profile_store fixture. -/
def profileEx : ProfileStore :=
  { dia := 5
    carbratio := [⟨"00:00", 10, 0⟩]
    sens := [⟨"00:00", 50, 0⟩]
    basal := [⟨"00:00", 1, 0⟩]
    target_low := [⟨"00:00", 100, 90, 110, 0⟩]
    target_high := [⟨"00:00", 120, 110, 130, 0⟩]
    timezone := "UTC"
    units := "mg/dL" }

/-- A concrete recommendation with a non-empty basal schedule and a dia.
Values are integer rationals so that concrete runs are kernel-decidable. -/
def recEx : AutotuneRecommendations :=
  { result := { basalprofile := [⟨"06:30:00", 60, 2⟩]
                carb_ratio := 12
                sens := 55
                dia := some 6 }
    profile_name := "Default"
    analysis_date := "2024-01-01T00:00:00"
    days_analyzed := 7 }

/-- A concrete recommendation whose basal schedule is empty. -/
def recEmptyBasal : AutotuneRecommendations :=
  { result := { basalprofile := []
                carb_ratio := 12
                sens := 55
                dia := none }
    profile_name := "Default"
    analysis_date := "2024-01-01T00:00:00"
    days_analyzed := 7 }

example :
    apply_recommendations profileEx recEx =
      some { dia := 6
             carbratio := [⟨"00:00", 12, 0⟩]
             sens := [⟨"00:00", 55, 0⟩]
             basal := [⟨"06:30", 2, 23400⟩]
             target_low := [⟨"00:00", 100, 90, 110, 0⟩]
             target_high := [⟨"00:00", 120, 110, 130, 0⟩]
             timezone := "UTC"
             units := "mg/dL" } := by decide

example :
    apply_recommendations profileEx recEmptyBasal =
      some { dia := 5
             carbratio := [⟨"00:00", 12, 0⟩]
             sens := [⟨"00:00", 55, 0⟩]
             basal := [⟨"00:00", 1, 0⟩]
             target_low := [⟨"00:00", 100, 90, 110, 0⟩]
             target_high := [⟨"00:00", 120, 110, 130, 0⟩]
             timezone := "UTC"
             units := "mg/dL" } := by decide

/-- The value of apply_recommendations profileEx recEx. -/
def applyResultEx : ProfileStore :=
  { dia := 6
    carbratio := [⟨"00:00", 12, 0⟩]
    sens := [⟨"00:00", 55, 0⟩]
    basal := [⟨"06:30", 2, 23400⟩]
    target_low := [⟨"00:00", 100, 90, 110, 0⟩]
    target_high := [⟨"00:00", 120, 110, 130, 0⟩]
    timezone := "UTC"
    units := "mg/dL" }

/-- The value of apply_recommendations profileEx recEmptyBasal. -/
def applyEmptyBasalResultEx : ProfileStore :=
  { dia := 5
    carbratio := [⟨"00:00", 12, 0⟩]
    sens := [⟨"00:00", 55, 0⟩]
    basal := [⟨"00:00", 1, 0⟩]
    target_low := [⟨"00:00", 100, 90, 110, 0⟩]
    target_high := [⟨"00:00", 120, 110, 130, 0⟩]
    timezone := "UTC"
    units := "mg/dL" }

/-! ## Shared inversion lemma for apply_recommendations -/

/-- Inverting a successful run of apply_recommendations: the new basal schedule
came from the guarded conversion, and the result is the updated record. -/
theorem apply_recommendations_inv (P : ProfileStore) (R : AutotuneRecommendations)
    (P' : ProfileStore) (h : apply_recommendations P R = some P') :
    ∃ basal1,
      (if !R.result.basalprofile.isEmpty
          then R.result.basalprofile.mapM convert_basal_entry
          else some P.basal) = some basal1 ∧
      P' = { P with
              carbratio := P.carbratio.map
                (fun e => { e with value := R.result.carb_ratio })
              sens := P.sens.map (fun e => { e with value := R.result.sens })
              basal := basal1
              dia := match R.result.dia with
                     | some d => if d ≠ 0 then d else P.dia
                     | none => P.dia } := by
  simp only [apply_recommendations, Option.map_eq_some'] at h
  obtain ⟨b, hb, hP'⟩ := h
  exact ⟨b, hb, hP'.symm⟩

/-- Mapping with mapM over Option preserves length when it succeeds. -/
theorem mapM_option_length {α β : Type} (f : α → Option β) :
    ∀ (l : List α) (bs : List β), l.mapM f = some bs → bs.length = l.length := by
  intro l
  induction l with
  | nil => intro bs h; simp only [List.mapM_nil, Option.pure_def, Option.some.injEq] at h
           simp [← h]
  | cons a rest ih =>
    intro bs h
    simp only [List.mapM_cons, Option.pure_def, Option.bind_eq_bind,
      Option.bind_eq_some, Option.some.injEq] at h
    obtain ⟨v, hv, bs', hbs', rfl⟩ := h
    simp [ih bs' hbs']

/-! ## Claim theorems for the reconciler -/

/-- Claim C2: for a profile whose carb-ratio schedule has N entries, the result
of apply_recommendations has a carb-ratio schedule of exactly N entries, each
with value equal to the scalar carb_ratio of the recommendation and the same
time and timeAsSeconds as the corresponding entry of the input; the sensitivity
schedule is transformed the same way using the scalar sens. -/
theorem apply_recommendations_uniform_override
    (P : ProfileStore) (R : AutotuneRecommendations) (P' : ProfileStore)
    (h : apply_recommendations P R = some P') :
    P'.carbratio.length = P.carbratio.length ∧
    P'.sens.length = P.sens.length ∧
    (∀ (i : ℕ) (hi' : i < P'.carbratio.length) (hi : i < P.carbratio.length),
      (P'.carbratio.get ⟨i, hi'⟩).value = R.result.carb_ratio ∧
      (P'.carbratio.get ⟨i, hi'⟩).time = (P.carbratio.get ⟨i, hi⟩).time ∧
      (P'.carbratio.get ⟨i, hi'⟩).timeAsSeconds
        = (P.carbratio.get ⟨i, hi⟩).timeAsSeconds) ∧
    (∀ (i : ℕ) (hi' : i < P'.sens.length) (hi : i < P.sens.length),
      (P'.sens.get ⟨i, hi'⟩).value = R.result.sens ∧
      (P'.sens.get ⟨i, hi'⟩).time = (P.sens.get ⟨i, hi⟩).time ∧
      (P'.sens.get ⟨i, hi'⟩).timeAsSeconds = (P.sens.get ⟨i, hi⟩).timeAsSeconds) := by
  obtain ⟨b, _, rfl⟩ := apply_recommendations_inv P R P' h
  refine ⟨by simp, by simp, ?_, ?_⟩ <;>
    · intro i hi' hi
      simp [List.get_eq_getElem, List.getElem_map]

/-- Claim C2 witness: concrete instantiation on profileEx and recEx. -/
theorem apply_recommendations_uniform_override_witness :
    (applyResultEx.carbratio.get ⟨0, by decide⟩).value = recEx.result.carb_ratio ∧
    (applyResultEx.sens.get ⟨0, by decide⟩).value = recEx.result.sens :=
  ⟨((apply_recommendations_uniform_override profileEx recEx applyResultEx
      (by decide)).2.2.1 0 (by decide) (by decide)).1,
   ((apply_recommendations_uniform_override profileEx recEx applyResultEx
      (by decide)).2.2.2 0 (by decide) (by decide)).1⟩

/-- Claim C3: with a non-empty recommendation basal schedule, the existing basal
schedule is discarded and rebuilt with one entry per recommendation entry in
order; each entry keeps the recommendation rate as its value, truncates the
start time to "HH:MM" and recomputes timeAsSeconds as hours*3600 + minutes*60
from the truncated parts; in particular start "06:30:00" yields time "06:30"
and timeAsSeconds 23400 with the rate carried over unchanged. -/
theorem apply_recommendations_basal_rebuilt
    (P : ProfileStore) (R : AutotuneRecommendations)
    (bs : List BasalScheduleEntry) (P' : ProfileStore)
    (hne : R.result.basalprofile ≠ [])
    (hconv : R.result.basalprofile.mapM convert_basal_entry = some bs)
    (h : apply_recommendations P R = some P') :
    P'.basal = bs ∧
    bs.length = R.result.basalprofile.length ∧
    (∀ (be : AutotuneBasalEntry) (hh mm : String) (rest : List String),
      pySplit be.start ':' = hh :: mm :: rest →
      ∀ (hrs mins : Int), pyInt? hh = some hrs → pyInt? mm = some mins →
        convert_basal_entry be
          = some ⟨hh ++ ":" ++ mm, be.rate, hrs * 3600 + mins * 60⟩) ∧
    (∀ (m : Int) (q : ℚ),
      convert_basal_entry ⟨"06:30:00", m, q⟩ = some ⟨"06:30", q, 23400⟩) := by
  obtain ⟨b, hb, rfl⟩ := apply_recommendations_inv P R P' h
  rw [if_pos (by simpa using hne), hconv] at hb
  refine ⟨by simpa using hb.symm, mapM_option_length _ _ _ hconv, ?_, fun m q => rfl⟩
  intro be hh mm rest hsplit hrs mins hh1 hm1
  simp [convert_basal_entry, hsplit, hh1, hm1]

/-- Claim C3 witness: concrete instantiation on profileEx and recEx. -/
theorem apply_recommendations_basal_rebuilt_witness :
    applyResultEx.basal = [⟨"06:30", 2, 23400⟩] :=
  (apply_recommendations_basal_rebuilt profileEx recEx [⟨"06:30", 2, 23400⟩]
    applyResultEx (by decide) (by decide) (by decide)).1

/-- Claim C4 counterexample: with an empty recommendation basal schedule the
replacement is skipped, so the returned profile keeps the original non-empty
basal schedule instead of becoming empty as the claim states. -/
theorem apply_recommendations_empty_basal_counterexample :
    apply_recommendations profileEx recEmptyBasal = some applyEmptyBasalResultEx ∧
    applyEmptyBasalResultEx.basal = profileEx.basal ∧
    applyEmptyBasalResultEx.basal ≠ [] := by decide

/-- Claim C4 as amended: when the recommendation basal schedule is empty, the
wholesale replacement is skipped (guard `if result.basalprofile:`), and the
returned profile keeps the input basal schedule unchanged. -/
theorem apply_recommendations_empty_basal_keeps_original
    (P : ProfileStore) (R : AutotuneRecommendations) (P' : ProfileStore)
    (hemp : R.result.basalprofile = [])
    (h : apply_recommendations P R = some P') :
    P'.basal = P.basal := by
  obtain ⟨b, hb, rfl⟩ := apply_recommendations_inv P R P' h
  rw [if_neg (by simp [hemp])] at hb
  simpa using hb.symm

/-- Claim C4 amended witness: concrete instantiation on profileEx and
recEmptyBasal. -/
theorem apply_recommendations_empty_basal_keeps_original_witness :
    applyEmptyBasalResultEx.basal = profileEx.basal :=
  apply_recommendations_empty_basal_keeps_original profileEx recEmptyBasal
    applyEmptyBasalResultEx (by decide) (by decide)

/-- Claim C5: for a valid recommendation (dia positive when present), the dia of
the returned profile equals the recommendation dia exactly when it is present,
and equals the original dia exactly when it is absent. -/
theorem apply_recommendations_dia
    (P : ProfileStore) (R : AutotuneRecommendations) (P' : ProfileStore)
    (hvalid : ∀ d, R.result.dia = some d → 0 < d)
    (h : apply_recommendations P R = some P') :
    (∀ d, R.result.dia = some d → P'.dia = d) ∧
    (R.result.dia = none → P'.dia = P.dia) := by
  obtain ⟨b, _, rfl⟩ := apply_recommendations_inv P R P' h
  constructor
  · intro d hd
    have hpos := hvalid d hd
    simp [hd, ne_of_gt hpos]
  · intro hd
    simp [hd]

/-- Claim C5 witness: concrete instantiation on profileEx and recEx, whose
recommendation carries dia 6. -/
theorem apply_recommendations_dia_witness : applyResultEx.dia = 6 :=
  (apply_recommendations_dia profileEx recEx applyResultEx
      (by intro d hd
          have : (6 : ℚ) = d := by simpa [recEx] using hd
          rw [← this]; norm_num)
      (by decide)).1 6 rfl

/-- Claim C9: apply_recommendations never touches the target-low and target-high
schedules nor the timezone and units metadata. -/
theorem apply_recommendations_preserves_targets_and_metadata
    (P : ProfileStore) (R : AutotuneRecommendations) (P' : ProfileStore)
    (h : apply_recommendations P R = some P') :
    P'.target_low = P.target_low ∧ P'.target_high = P.target_high ∧
    P'.timezone = P.timezone ∧ P'.units = P.units := by
  obtain ⟨b, _, rfl⟩ := apply_recommendations_inv P R P' h
  exact ⟨rfl, rfl, rfl, rfl⟩

/-- Claim C9 witness: concrete instantiation on profileEx and recEx. -/
theorem apply_recommendations_preserves_targets_and_metadata_witness :
    applyResultEx.target_low = profileEx.target_low ∧
    applyResultEx.target_high = profileEx.target_high ∧
    applyResultEx.timezone = profileEx.timezone ∧
    applyResultEx.units = profileEx.units :=
  apply_recommendations_preserves_targets_and_metadata profileEx recEx
    applyResultEx (by decide)

/-! ## Heap model of the reconciler for the no-mutation guarantee (claim C1)

In Python, schedule entries are mutable objects: `entry.value = x` writes the
object in place, and `profile.model_copy(deep=True)` allocates fresh objects for
every nested entry. To state that apply_recommendations neither mutates the
input profile nor returns anything aliasing it, the entry objects are modelled
as cells in an explicit heap addressed by natural numbers, with allocation
returning fresh addresses. -/

/-- Mutable cell for the three identically-shaped schedule entry models
(BasalScheduleEntry, CarbRatioEntry, SensitivityEntry). -/
structure SchedCell where
  time : String
  value : ℚ
  timeAsSeconds : Int
deriving DecidableEq

/-- Mutable cell for TargetEntry objects. -/
structure TargetCell where
  time : String
  value : ℚ
  low : ℚ
  high : ℚ
  timeAsSeconds : Int
deriving DecidableEq

/-- The heap: association lists of allocated cells plus a fresh-address
counter. Newly allocated cells are consed to the front and receive the
counter as address. -/
structure Heap where
  sched : List (Nat × SchedCell)
  target : List (Nat × TargetCell)
  next : Nat

/-- Association-list lookup, first match wins. -/
def cellsGet {β : Type} : List (Nat × β) → Nat → Option β
  | [], _ => none
  | (k, v) :: rest, a => if k = a then some v else cellsGet rest a

/-- Association-list in-place write of the value field, first match wins. -/
def cellsSetValue : List (Nat × SchedCell) → Nat → ℚ → List (Nat × SchedCell)
  | [], _, _ => []
  | (k, c) :: rest, a, v =>
    if k = a then (k, { c with value := v }) :: rest
    else (k, c) :: cellsSetValue rest a v

def Heap.getSched (h : Heap) (a : Nat) : Option SchedCell := cellsGet h.sched a

def Heap.getTarget (h : Heap) (a : Nat) : Option TargetCell := cellsGet h.target a

/-- Allocate a fresh schedule-entry object. -/
def Heap.allocSched (h : Heap) (c : SchedCell) : Heap × Nat :=
  ({ h with sched := (h.next, c) :: h.sched, next := h.next + 1 }, h.next)

/-- Allocate a fresh target-entry object. -/
def Heap.allocTarget (h : Heap) (c : TargetCell) : Heap × Nat :=
  ({ h with target := (h.next, c) :: h.target, next := h.next + 1 }, h.next)

/-- The in-place write `entry.value = v` on the object at address a. -/
def Heap.setSchedValue (h : Heap) (a : Nat) (v : ℚ) : Heap :=
  { h with sched := cellsSetValue h.sched a v }

/-- A ProfileStore object whose schedule lists hold references to entry
objects on the heap. The scalar fields live in the profile object itself. -/
structure ProfileH where
  dia : ℚ
  carbratio : List Nat
  sens : List Nat
  basal : List Nat
  target_low : List Nat
  target_high : List Nat
  timezone : String
  units : String

/-- All entry-object references held by a profile. -/
def ProfileH.addrs (p : ProfileH) : List Nat :=
  p.carbratio ++ p.sens ++ p.basal ++ p.target_low ++ p.target_high

/-- Deep copy of one schedule list: allocate a fresh cell per entry holding the
same contents, left to right. -/
def copySchedAddrs (h : Heap) : List Nat → Heap × List Nat
  | [] => (h, [])
  | a :: rest =>
    match h.allocSched ((h.getSched a).getD ⟨"", 0, 0⟩) with
    | (h1, a1) =>
      match copySchedAddrs h1 rest with
      | (h2, as2) => (h2, a1 :: as2)

/-- Deep copy of one target list. -/
def copyTargetAddrs (h : Heap) : List Nat → Heap × List Nat
  | [] => (h, [])
  | a :: rest =>
    match h.allocTarget ((h.getTarget a).getD ⟨"", 0, 0, 0, 0⟩) with
    | (h1, a1) =>
      match copyTargetAddrs h1 rest with
      | (h2, as2) => (h2, a1 :: as2)

/-- Embedding of profile.model_copy(deep=True): fresh objects for every nested entry; the
scalar fields are copied by value into the new profile object. -/
def deepCopyProfileH (h : Heap) (p : ProfileH) : Heap × ProfileH :=
  match copySchedAddrs h p.carbratio with
  | (h1, cr) =>
    match copySchedAddrs h1 p.sens with
    | (h2, sn) =>
      match copySchedAddrs h2 p.basal with
      | (h3, bs) =>
        match copyTargetAddrs h3 p.target_low with
        | (h4, tl) =>
          match copyTargetAddrs h4 p.target_high with
          | (h5, th) =>
            (h5, { p with carbratio := cr, sens := sn, basal := bs,
                          target_low := tl, target_high := th })

/-- The loop `for entry in addrs: entry.value = v`. -/
def setAllValues : Heap → List Nat → ℚ → Heap
  | h, [], _ => h
  | h, a :: rest, v => setAllValues (h.setSchedValue a v) rest v

/-- The basal-conversion loop of apply_recommendations against the heap: each
converted entry is a freshly allocated BasalScheduleEntry object; a conversion
failure (Python raise) aborts the loop after the allocations made so far. -/
def allocBasalAddrs (h : Heap) : List AutotuneBasalEntry → Heap × Option (List Nat)
  | [] => (h, some [])
  | be :: rest =>
    match convert_basal_entry be with
    | none => (h, none)
    | some e =>
      match h.allocSched ⟨e.time, e.value, e.timeAsSeconds⟩ with
      | (h1, a1) =>
        match allocBasalAddrs h1 rest with
        | (h2, res) => (h2, res.map (a1 :: ·))

/-- The final dia update: `if result.dia: updated_profile.dia = result.dia`. -/
def diaUpdate (p : ProfileH) (dia : Option ℚ) : ProfileH :=
  match dia with
  | some d => if d ≠ 0 then { p with dia := d } else p
  | none => p

/-- Embedding of AutotuneService.apply_recommendations against the explicit heap: deep copy
the profile, mutate the copied carb-ratio and sensitivity entries in place,
rebuild the basal list from freshly allocated objects when the recommendation
basal schedule is non-empty, then update dia. Returns the final heap and the
updated profile object (none when the conversion raises; the heap writes made
before the raise persist). -/
def applyRecommendationsHeap (h : Heap) (p : ProfileH)
    (r : AutotuneRecommendations) : Heap × Option ProfileH :=
  match deepCopyProfileH h p with
  | (h1, up) =>
    let h3 := setAllValues (setAllValues h1 up.carbratio r.result.carb_ratio)
      up.sens r.result.sens
    if !r.result.basalprofile.isEmpty then
      match allocBasalAddrs h3 r.result.basalprofile with
      | (h4, none) => (h4, none)
      | (h4, some bs) =>
        (h4, some (diaUpdate { up with basal := bs } r.result.dia))
    else
      (h3, some (diaUpdate up r.result.dia))

/-- Observable value of a heap profile: dereference every entry reference.
This is the field-by-field value of the profile object named in claim C1. -/
def readProfileH (h : Heap) (p : ProfileH) : ProfileStore :=
  { dia := p.dia
    carbratio := p.carbratio.map fun a =>
      match (h.getSched a).getD ⟨"", 0, 0⟩ with
      | ⟨t, v, s⟩ => (⟨t, v, s⟩ : CarbRatioEntry)
    sens := p.sens.map fun a =>
      match (h.getSched a).getD ⟨"", 0, 0⟩ with
      | ⟨t, v, s⟩ => (⟨t, v, s⟩ : SensitivityEntry)
    basal := p.basal.map fun a =>
      match (h.getSched a).getD ⟨"", 0, 0⟩ with
      | ⟨t, v, s⟩ => (⟨t, v, s⟩ : BasalScheduleEntry)
    target_low := p.target_low.map fun a =>
      match (h.getTarget a).getD ⟨"", 0, 0, 0, 0⟩ with
      | ⟨t, v, lo, hi, s⟩ => (⟨t, v, lo, hi, s⟩ : TargetEntry)
    target_high := p.target_high.map fun a =>
      match (h.getTarget a).getD ⟨"", 0, 0, 0, 0⟩ with
      | ⟨t, v, lo, hi, s⟩ => (⟨t, v, lo, hi, s⟩ : TargetEntry)
    timezone := p.timezone
    units := p.units }


/-! ## Frame lemmas for the heap model -/

/-- Heap h1 extends h0: the counter grew and every object allocated in h0 (address
below the h0 counter) is unchanged. -/
def HeapExtends (h0 h1 : Heap) : Prop :=
  h0.next ≤ h1.next ∧
  ∀ a, a < h0.next →
    h1.getSched a = h0.getSched a ∧ h1.getTarget a = h0.getTarget a

theorem heapExtends_refl (h : Heap) : HeapExtends h h :=
  ⟨le_refl _, fun _ _ => ⟨rfl, rfl⟩⟩

theorem cellsGet_setValue_ne (a a' : Nat) (v : ℚ) (hne : a' ≠ a) :
    ∀ l : List (Nat × SchedCell),
      cellsGet (cellsSetValue l a v) a' = cellsGet l a' := by
  intro l
  induction l with
  | nil => rfl
  | cons p rest ih =>
    obtain ⟨k, c⟩ := p
    by_cases hk : k = a
    · subst hk
      have hka' : ¬ k = a' := fun hc => hne hc.symm
      simp [cellsSetValue, cellsGet, hka']
    · simp [cellsSetValue, hk, cellsGet, ih]

theorem getSched_allocSched (h : Heap) (c : SchedCell) (a : Nat) (ha : a < h.next) :
    (h.allocSched c).1.getSched a = h.getSched a := by
  simp [Heap.allocSched, Heap.getSched, cellsGet, Nat.ne_of_gt ha]

theorem getTarget_allocTarget (h : Heap) (c : TargetCell) (a : Nat) (ha : a < h.next) :
    (h.allocTarget c).1.getTarget a = h.getTarget a := by
  simp [Heap.allocTarget, Heap.getTarget, cellsGet, Nat.ne_of_gt ha]

theorem extends_allocSched {h0 h : Heap} (hx : HeapExtends h0 h) (c : SchedCell) :
    HeapExtends h0 (h.allocSched c).1 := by
  obtain ⟨hn, hp⟩ := hx
  refine ⟨Nat.le_succ_of_le hn, fun a ha => ?_⟩
  have hlt : a < h.next := lt_of_lt_of_le ha hn
  exact ⟨(getSched_allocSched h c a hlt).trans (hp a ha).1, (hp a ha).2⟩

theorem extends_allocTarget {h0 h : Heap} (hx : HeapExtends h0 h) (c : TargetCell) :
    HeapExtends h0 (h.allocTarget c).1 := by
  obtain ⟨hn, hp⟩ := hx
  refine ⟨Nat.le_succ_of_le hn, fun a ha => ?_⟩
  have hlt : a < h.next := lt_of_lt_of_le ha hn
  exact ⟨(hp a ha).1, (getTarget_allocTarget h c a hlt).trans (hp a ha).2⟩

theorem extends_setSchedValue {h0 h : Heap} (hx : HeapExtends h0 h)
    (a : Nat) (v : ℚ) (ha : h0.next ≤ a) :
    HeapExtends h0 (h.setSchedValue a v) := by
  obtain ⟨hn, hp⟩ := hx
  refine ⟨hn, fun a' ha' => ?_⟩
  have hne : a' ≠ a := by omega
  exact ⟨(cellsGet_setValue_ne a a' v hne h.sched).trans (hp a' ha').1,
    (hp a' ha').2⟩

theorem extends_setAllValues {h0 : Heap} :
    ∀ (as : List Nat) (h : Heap) (v : ℚ),
      (∀ a ∈ as, h0.next ≤ a) → HeapExtends h0 h →
      HeapExtends h0 (setAllValues h as v) := by
  intro as
  induction as with
  | nil => intro h v _ hx; exact hx
  | cons a rest ih =>
    intro h v hall hx
    exact ih (h.setSchedValue a v) v (fun a' ha' => hall a' (by simp [ha']))
      (extends_setSchedValue hx a v (hall a (by simp)))

theorem copySchedAddrs_spec :
    ∀ (as : List Nat) (h : Heap),
      (∀ h0, HeapExtends h0 h → HeapExtends h0 (copySchedAddrs h as).1) ∧
      h.next ≤ (copySchedAddrs h as).1.next ∧
      ∀ a ∈ (copySchedAddrs h as).2, h.next ≤ a := by
  intro as
  induction as with
  | nil =>
    intro h
    refine ⟨fun _ hx => hx, le_refl _, ?_⟩
    intro a ha
    simp [copySchedAddrs] at ha
  | cons a rest ih =>
    intro h
    simp only [copySchedAddrs]
    obtain ⟨ihx, ihn, iha⟩ := ih (h.allocSched ((h.getSched a).getD ⟨"", 0, 0⟩)).1
    have hn1 : (h.allocSched ((h.getSched a).getD ⟨"", 0, 0⟩)).1.next
        = h.next + 1 := rfl
    rw [hn1] at ihn
    refine ⟨fun h0 hx => ihx h0 (extends_allocSched hx _), by omega, ?_⟩
    intro a' ha'
    simp only [List.mem_cons] at ha'
    rcases ha' with rfl | hmem
    · exact Nat.le.refl
    · have h2 : h.next + 1 ≤ a' := iha a' hmem
      omega

theorem copyTargetAddrs_spec :
    ∀ (as : List Nat) (h : Heap),
      (∀ h0, HeapExtends h0 h → HeapExtends h0 (copyTargetAddrs h as).1) ∧
      h.next ≤ (copyTargetAddrs h as).1.next ∧
      ∀ a ∈ (copyTargetAddrs h as).2, h.next ≤ a := by
  intro as
  induction as with
  | nil =>
    intro h
    refine ⟨fun _ hx => hx, le_refl _, ?_⟩
    intro a ha
    simp [copyTargetAddrs] at ha
  | cons a rest ih =>
    intro h
    simp only [copyTargetAddrs]
    obtain ⟨ihx, ihn, iha⟩ :=
      ih (h.allocTarget ((h.getTarget a).getD ⟨"", 0, 0, 0, 0⟩)).1
    have hn1 : (h.allocTarget ((h.getTarget a).getD ⟨"", 0, 0, 0, 0⟩)).1.next
        = h.next + 1 := rfl
    rw [hn1] at ihn
    refine ⟨fun h0 hx => ihx h0 (extends_allocTarget hx _), by omega, ?_⟩
    intro a' ha'
    simp only [List.mem_cons] at ha'
    rcases ha' with rfl | hmem
    · exact Nat.le.refl
    · have h2 : h.next + 1 ≤ a' := iha a' hmem
      omega

theorem allocBasalAddrs_spec :
    ∀ (bes : List AutotuneBasalEntry) (h : Heap),
      (∀ h0, HeapExtends h0 h → HeapExtends h0 (allocBasalAddrs h bes).1) ∧
      h.next ≤ (allocBasalAddrs h bes).1.next ∧
      ∀ bs, (allocBasalAddrs h bes).2 = some bs → ∀ a ∈ bs, h.next ≤ a := by
  intro bes
  induction bes with
  | nil =>
    intro h
    refine ⟨fun _ hx => hx, le_refl _, ?_⟩
    intro bs hbs
    simp only [allocBasalAddrs, Option.some.injEq] at hbs
    simp [← hbs]
  | cons be rest ih =>
    intro h
    cases hconv : convert_basal_entry be with
    | none =>
      simp only [allocBasalAddrs, hconv]
      refine ⟨fun _ hx => hx, le_refl _, ?_⟩
      intro bs hbs
      cases hbs
    | some e =>
      simp only [allocBasalAddrs, hconv]
      obtain ⟨ihx, ihn, iha⟩ :=
        ih (h.allocSched ⟨e.time, e.value, e.timeAsSeconds⟩).1
      have hn1 : (h.allocSched ⟨e.time, e.value, e.timeAsSeconds⟩).1.next
          = h.next + 1 := rfl
      rw [hn1] at ihn
      refine ⟨fun h0 hx => ihx h0 (extends_allocSched hx _), by omega, ?_⟩
      intro bs hbs
      simp only [Option.map_eq_some'] at hbs
      obtain ⟨bs', hbs', rfl⟩ := hbs
      intro a' ha'
      simp only [List.mem_cons] at ha'
      rcases ha' with rfl | hmem
      · exact Nat.le.refl
      · have h2 : h.next + 1 ≤ a' := iha bs' hbs' a' hmem
        omega

theorem deepCopyProfileH_spec (h : Heap) (p : ProfileH) :
    (∀ h0, HeapExtends h0 h → HeapExtends h0 (deepCopyProfileH h p).1) ∧
    h.next ≤ (deepCopyProfileH h p).1.next ∧
    ∀ a ∈ (deepCopyProfileH h p).2.addrs, h.next ≤ a := by
  simp only [deepCopyProfileH, ProfileH.addrs]
  obtain ⟨x1, n1, a1⟩ := copySchedAddrs_spec p.carbratio h
  obtain ⟨x2, n2, a2⟩ := copySchedAddrs_spec p.sens
    (copySchedAddrs h p.carbratio).1
  obtain ⟨x3, n3, a3⟩ := copySchedAddrs_spec p.basal
    (copySchedAddrs (copySchedAddrs h p.carbratio).1 p.sens).1
  obtain ⟨x4, n4, a4⟩ := copyTargetAddrs_spec p.target_low
    (copySchedAddrs (copySchedAddrs (copySchedAddrs h p.carbratio).1 p.sens).1
      p.basal).1
  obtain ⟨x5, n5, a5⟩ := copyTargetAddrs_spec p.target_high
    (copyTargetAddrs
      (copySchedAddrs (copySchedAddrs (copySchedAddrs h p.carbratio).1 p.sens).1
        p.basal).1 p.target_low).1
  refine ⟨fun h0 hx => x5 h0 (x4 h0 (x3 h0 (x2 h0 (x1 h0 hx)))),
    le_trans n1 (le_trans n2 (le_trans n3 (le_trans n4 n5))), ?_⟩
  intro a ha
  simp only [List.mem_append] at ha
  rcases ha with (((hc | hs) | hb) | htl) | hth
  · exact a1 a hc
  · exact le_trans n1 (a2 a hs)
  · exact le_trans n1 (le_trans n2 (a3 a hb))
  · exact le_trans n1 (le_trans n2 (le_trans n3 (a4 a htl)))
  · exact le_trans n1 (le_trans n2 (le_trans n3 (le_trans n4 (a5 a hth))))

theorem diaUpdate_addrs (p : ProfileH) (o : Option ℚ) :
    (diaUpdate p o).addrs = p.addrs := by
  cases o with
  | none => rfl
  | some d =>
    by_cases hd : d ≠ 0
    · simp [diaUpdate, hd, ProfileH.addrs]
    · simp [diaUpdate, hd, ProfileH.addrs]

theorem applyRecommendationsHeap_spec (h : Heap) (p : ProfileH)
    (r : AutotuneRecommendations) :
    HeapExtends h (applyRecommendationsHeap h p r).1 ∧
    ∀ p', (applyRecommendationsHeap h p r).2 = some p' →
      ∀ a ∈ p'.addrs, h.next ≤ a := by
  obtain ⟨dx, dn, da⟩ := deepCopyProfileH_spec h p
  have hx1 : HeapExtends h (deepCopyProfileH h p).1 := dx h (heapExtends_refl h)
  have hub : ∀ a ∈ (deepCopyProfileH h p).2.carbratio, h.next ≤ a := fun a ha =>
    da a (by simp [ProfileH.addrs, ha])
  have hus : ∀ a ∈ (deepCopyProfileH h p).2.sens, h.next ≤ a := fun a ha =>
    da a (by simp [ProfileH.addrs, ha])
  have hx3 : HeapExtends h
      (setAllValues (setAllValues (deepCopyProfileH h p).1
        (deepCopyProfileH h p).2.carbratio r.result.carb_ratio)
        (deepCopyProfileH h p).2.sens r.result.sens) :=
    extends_setAllValues _ _ _ hus (extends_setAllValues _ _ _ hub hx1)
  obtain ⟨bx, bn, ba⟩ := allocBasalAddrs_spec r.result.basalprofile
    (setAllValues (setAllValues (deepCopyProfileH h p).1
      (deepCopyProfileH h p).2.carbratio r.result.carb_ratio)
      (deepCopyProfileH h p).2.sens r.result.sens)
  simp only [applyRecommendationsHeap]
  split
  · split
    · rename_i heq
      rw [heq] at bx
      refine ⟨bx h hx3, ?_⟩
      intro p' hp'
      cases hp'
    · rename_i h4 bs heq
      rw [heq] at bx bn
      have hba : ∀ a ∈ bs, h.next ≤ a := by
        intro a ha
        have h2 := ba bs (by rw [heq]) a ha
        have h3 := hx3.1
        omega
      refine ⟨bx h hx3, ?_⟩
      intro p' hp' a ha
      simp only [Option.some.injEq] at hp'
      rw [← hp', diaUpdate_addrs] at ha
      simp only [ProfileH.addrs, List.mem_append] at ha
      rcases ha with (((hc | hs) | hb) | htl) | hth
      · exact da a (by simp [ProfileH.addrs, hc])
      · exact da a (by simp [ProfileH.addrs, hs])
      · exact hba a hb
      · exact da a (by simp [ProfileH.addrs, htl])
      · exact da a (by simp [ProfileH.addrs, hth])
  · refine ⟨hx3, ?_⟩
    intro p' hp' a ha
    simp only [Option.some.injEq] at hp'
    rw [← hp', diaUpdate_addrs] at ha
    exact da a ha

theorem readProfileH_congr {h h' : Heap} (p : ProfileH)
    (hs : ∀ a ∈ p.addrs,
      h'.getSched a = h.getSched a ∧ h'.getTarget a = h.getTarget a) :
    readProfileH h' p = readProfileH h p := by
  have hmem : ∀ (l : List Nat), l = p.carbratio ∨ l = p.sens ∨ l = p.basal ∨
      l = p.target_low ∨ l = p.target_high → ∀ a ∈ l, a ∈ p.addrs := by
    intro l hl a ha
    simp only [ProfileH.addrs, List.mem_append]
    rcases hl with rfl | rfl | rfl | rfl | rfl <;> tauto
  unfold readProfileH
  congr 1
  · exact List.map_congr_left fun a ha => by
      rw [(hs a (hmem p.carbratio (by tauto) a ha)).1]
  · exact List.map_congr_left fun a ha => by
      rw [(hs a (hmem p.sens (by tauto) a ha)).1]
  · exact List.map_congr_left fun a ha => by
      rw [(hs a (hmem p.basal (by tauto) a ha)).1]
  · exact List.map_congr_left fun a ha => by
      rw [(hs a (hmem p.target_low (by tauto) a ha)).2]
  · exact List.map_congr_left fun a ha => by
      rw [(hs a (hmem p.target_high (by tauto) a ha)).2]

/-- Claim C1: for a well-formed input (every entry object the profile references
was allocated on the heap before the call), apply_recommendations does not
mutate the input profile: every field of its observable value (dia, carbratio,
sens, basal, target_low, target_high, timezone, units) is unchanged by the
call; and the returned profile references no entry object of the input, hence
shares no mutable substructure with it. -/
theorem applyRecommendationsHeap_no_mutation (h : Heap) (p : ProfileH)
    (r : AutotuneRecommendations) (hwf : ∀ a ∈ p.addrs, a < h.next) :
    readProfileH (applyRecommendationsHeap h p r).1 p = readProfileH h p ∧
    ∀ p', (applyRecommendationsHeap h p r).2 = some p' →
      ∀ a ∈ p'.addrs, a ∉ p.addrs := by
  obtain ⟨hx, hfresh⟩ := applyRecommendationsHeap_spec h p r
  constructor
  · exact readProfileH_congr p fun a ha => hx.2 a (hwf a ha)
  · intro p' hp' a ha hmem
    have h1 := hfresh p' hp' a ha
    have h2 := hwf a hmem
    omega

/-- A concrete heap holding the entry objects of profileEx at addresses 0-4. -/
def heapEx : Heap :=
  { sched := [(0, ⟨"00:00", 10, 0⟩), (1, ⟨"00:00", 50, 0⟩), (2, ⟨"00:00", 1, 0⟩)]
    target := [(3, ⟨"00:00", 100, 90, 110, 0⟩), (4, ⟨"00:00", 120, 110, 130, 0⟩)]
    next := 5 }

/-- The profile object of profileEx with its entry references into heapEx. -/
def profileHEx : ProfileH :=
  { dia := 5
    carbratio := [0]
    sens := [1]
    basal := [2]
    target_low := [3]
    target_high := [4]
    timezone := "UTC"
    units := "mg/dL" }

/-- Claim C1 witness: concrete instantiation on heapEx, profileHEx and recEx. -/
theorem applyRecommendationsHeap_no_mutation_witness :
    readProfileH (applyRecommendationsHeap heapEx profileHEx recEx).1 profileHEx
      = readProfileH heapEx profileHEx ∧
    ∀ p', (applyRecommendationsHeap heapEx profileHEx recEx).2 = some p' →
      ∀ a ∈ p'.addrs, a ∉ profileHEx.addrs :=
  applyRecommendationsHeap_no_mutation heapEx profileHEx recEx (by decide)

/-! ## Historical data loader: NightscoutService.get_historical_data
    (src/app/services/nightscout_service.py, lines 90-141) -/

/-- Raw glucose record as returned by the data-store collaborator: every field
may be missing. The _id field is a pydantic private attribute (leading
underscore) and not a validated field, so it is carried nowhere here. -/
structure RawEntry where
  sgv : Option Int
  date : Option Int
  dateString : Option String
  type : Option String
  direction : Option String
  device : Option String
deriving DecidableEq

/-- Validated NightscoutEntry (models/nightscout.py): sgv int in [20, 600],
date, dateString and type required; direction and device optional. -/
structure NightscoutEntry where
  sgv : Int
  date : Int
  dateString : String
  type : String
  direction : Option String
  device : Option String
deriving DecidableEq

/-- Raw treatment record as returned by the data-store collaborator. -/
structure RawTreatment where
  eventType : Option String
  created_at : Option String
  timestamp : Option String
  insulin : Option ℚ
  carbs : Option ℚ
  glucose : Option Int
  glucoseType : Option String
  notes : Option String
  enteredBy : Option String
deriving DecidableEq

/-- Validated NightscoutTreatment: eventType and created_at required; insulin
and carbs nonnegative when present; the rest optional. -/
structure NightscoutTreatment where
  eventType : String
  created_at : String
  timestamp : Option String
  insulin : Option ℚ
  carbs : Option ℚ
  glucose : Option Int
  glucoseType : Option String
  notes : Option String
  enteredBy : Option String
deriving DecidableEq

/-- HistoricalData: validated entries and treatments plus the resolved window.
Dates are modelled as epoch milliseconds. -/
structure HistoricalData where
  entries : List NightscoutEntry
  treatments : List NightscoutTreatment
  start_date : Int
  end_date : Int
deriving DecidableEq

/-- Embedding of pydantic validation of a raw glucose record, NightscoutEntry(**entry_data):
fails when a required field is missing or sgv violates ge=20 / le=600. -/
def validateEntry (e : RawEntry) : Except String NightscoutEntry :=
  match e.sgv, e.date, e.dateString, e.type with
  | some sgv, some date, some dateString, some ty =>
    if 20 ≤ sgv then
      if sgv ≤ 600 then .ok ⟨sgv, date, dateString, ty, e.direction, e.device⟩
      else .error "sgv"
    else .error "sgv"
  | _, _, _, _ => .error "missing required field"

/-- Embedding of the pydantic bound ge=0 on an optional numeric field. -/
def nonnegOpt : Option ℚ → Bool
  | none => true
  | some x => decide (0 ≤ x)

/-- Embedding of pydantic validation of a raw treatment record,
NightscoutTreatment(**treatment_data). -/
def validateTreatment (t : RawTreatment) : Except String NightscoutTreatment :=
  match t.eventType, t.created_at with
  | some ev, some ca =>
    if nonnegOpt t.insulin then
      if nonnegOpt t.carbs then
        .ok ⟨ev, ca, t.timestamp, t.insulin, t.carbs, t.glucose,
             t.glucoseType, t.notes, t.enteredBy⟩
      else .error "carbs"
    else .error "insulin"
  | _, _ => .error "missing required field"

/-- The entry-validation loop of get_historical_data: try to validate, append
on success, log and continue on failure. -/
def collectValidEntries : List RawEntry → List NightscoutEntry
  | [] => []
  | e :: rest =>
    match validateEntry e with
    | .ok v => v :: collectValidEntries rest
    | .error _ => collectValidEntries rest

/-- The treatment-validation loop of get_historical_data. -/
def collectValidTreatments : List RawTreatment → List NightscoutTreatment
  | [] => []
  | t :: rest =>
    match validateTreatment t with
    | .ok v => v :: collectValidTreatments rest
    | .error _ => collectValidTreatments rest

/-- Embedding of NightscoutService.get_historical_data over the raw record lists returned by
the client and the resolved window. The function is total: data-shape failures
are recovered per record inside the loops, never raised. -/
def get_historical_data (entries_raw : List RawEntry)
    (treatments_raw : List RawTreatment) (start_date end_date : Int) :
    HistoricalData :=
  { entries := collectValidEntries entries_raw
    treatments := collectValidTreatments treatments_raw
    start_date := start_date
    end_date := end_date }

theorem collectValidEntries_eq_filterMap (l : List RawEntry) :
    collectValidEntries l = l.filterMap fun e => (validateEntry e).toOption := by
  induction l with
  | nil => rfl
  | cons e rest ih =>
    cases h : validateEntry e with
    | ok v => simp [collectValidEntries, h, List.filterMap_cons, Except.toOption, ih]
    | error s => simp [collectValidEntries, h, List.filterMap_cons, Except.toOption, ih]

theorem collectValidTreatments_eq_filterMap (l : List RawTreatment) :
    collectValidTreatments l
      = l.filterMap fun t => (validateTreatment t).toOption := by
  induction l with
  | nil => rfl
  | cons t rest ih =>
    cases h : validateTreatment t with
    | ok v => simp [collectValidTreatments, h, List.filterMap_cons, Except.toOption, ih]
    | error s => simp [collectValidTreatments, h, List.filterMap_cons, Except.toOption, ih]

/-- A raw glucose entry that validates (the valid_entry test fixture). -/
def validEntryEx : RawEntry :=
  { sgv := some 120
    date := some 1704067200000
    dateString := some "2024-01-01T00:00:00Z"
    type := some "sgv"
    direction := none
    device := none }

/-- A schema-invalid raw glucose entry (the invalid_entry test fixture, a
record carrying none of the required fields). -/
def invalidEntryEx : RawEntry :=
  { sgv := none, date := none, dateString := none, type := none
    direction := none, device := none }

/-- Claim C6: get_historical_data is total (never raises for data-shape
problems); each raw record that fails validation is dropped and each one that
validates is kept, in order, so the result is exactly the filterMap of
validation over the raw lists; a raw list with one valid and one schema-invalid
glucose entry yields exactly one entry; an empty result is a valid output. -/
theorem get_historical_data_drops_invalid
    (entries_raw : List RawEntry) (treatments_raw : List RawTreatment)
    (start_date end_date : Int) :
    (get_historical_data entries_raw treatments_raw start_date end_date).entries
        = entries_raw.filterMap (fun e => (validateEntry e).toOption) ∧
    (get_historical_data entries_raw treatments_raw start_date
        end_date).treatments
        = treatments_raw.filterMap (fun t => (validateTreatment t).toOption) ∧
    (get_historical_data [validEntryEx, invalidEntryEx] [] start_date
        end_date).entries.length = 1 ∧
    (get_historical_data [] [] start_date end_date).entries = [] := by
  exact ⟨collectValidEntries_eq_filterMap entries_raw,
    collectValidTreatments_eq_filterMap treatments_raw, rfl, rfl⟩

/-! ## Tuning invocation adapter: AutotuneClient.run_autotune
    (src/app/clients/autotune_client.py, lines 31-122) -/

/-- Outcome of the subprocess.run invocation of the external executable. -/
inductive ProcOutcome where
  | timedOut
  | exited (returncode : Int) (stdout stderr : String)
deriving DecidableEq

/-- The external collaborators of one run_autotune invocation: the process
outcome and the content of autotune/autotune_recommendations.json in the
private working directory after the run (none when the file was never
created). The type parameter stands for the parsed JSON content returned by
json.loads. -/
structure AutotuneEnv (α : Type) where
  outcome : ProcOutcome
  recommendationsFile : Option α

/-- The exceptions run_autotune can surface: ValueError (used both for the
timeout and for the missing output artifact, with distinct messages) and the
re-raised subprocess.CalledProcessError for a non-zero exit. -/
inductive RunAutotuneError where
  | valueError (msg : String)
  | calledProcessError (returncode : Int) (stdout stderr : String)
deriving DecidableEq

/-- Embedding of AutotuneClient.run_autotune: run the external process (check=True raises
CalledProcessError on non-zero exit; TimeoutExpired is converted to ValueError);
after a successful exit, read the declared output artifact and fail with the
distinct no-output ValueError when it does not exist. -/
def run_autotune {α : Type} (env : AutotuneEnv α) : Except RunAutotuneError α :=
  match env.outcome with
  | .timedOut => .error (.valueError "Autotune analysis timed out")
  | .exited returncode stdout stderr =>
    if returncode ≠ 0 then
      .error (.calledProcessError returncode stdout stderr)
    else
      match env.recommendationsFile with
      | none => .error (.valueError
          "Autotune did not produce recommendations file. Check that enough valid data was provided.")
      | some recommendations => .ok recommendations

/-- Claim C7: when the external process exits successfully but the declared
output artifact is absent, run_autotune fails with the distinct no-output
condition and never returns a recommendation. -/
theorem run_autotune_no_output {α : Type} (env : AutotuneEnv α)
    (stdout stderr : String)
    (hexit : env.outcome = .exited 0 stdout stderr)
    (habsent : env.recommendationsFile = none) :
    run_autotune env = .error (.valueError
      "Autotune did not produce recommendations file. Check that enough valid data was provided.")
    ∧ ∀ x, run_autotune env ≠ .ok x := by
  have h : run_autotune env = .error (.valueError
      "Autotune did not produce recommendations file. Check that enough valid data was provided.") := by
    simp [run_autotune, hexit, habsent]
  exact ⟨h, fun x hx => by rw [h] at hx; cases hx⟩

/-- A concrete environment: successful exit, artifact never created. -/
def autotuneEnvNoOutput : AutotuneEnv Nat :=
  { outcome := .exited 0 "" "", recommendationsFile := none }

/-- Claim C7 witness: concrete instantiation on autotuneEnvNoOutput. -/
theorem run_autotune_no_output_witness :
    run_autotune autotuneEnvNoOutput = .error (.valueError
      "Autotune did not produce recommendations file. Check that enough valid data was provided.")
    ∧ ∀ x, run_autotune autotuneEnvNoOutput ≠ .ok x :=
  run_autotune_no_output autotuneEnvNoOutput "" "" rfl rfl

/-! ## Profile sync: NightscoutClient.update_profile and
    NightscoutService.sync_profile
    (src/app/clients/nightscout_client.py, lines 63-89 and 229-279;
     src/app/services/nightscout_service.py, lines 143-164) -/

/-- The Python exception classes that can surface on the sync path, plus the
ProfileNameUnresolved condition named by the specification. The client code
defines no such condition; the constructor exists only so that the claim about
it can be stated and compared against what the code actually raises. -/
inductive PyError where
  | validationError (msg : String)
  | valueError (msg : String)
  | keyError (key : String)
  | typeError (msg : String)
  | nameError (name : String)
  | attributeError (name : String)
  | profileNameUnresolved
deriving DecidableEq

/-- Raw profile document as returned by GET /api/v1/profile: every field may be
missing. The store values are modelled as already-shaped ProfileStore values;
their own field-level revalidation is orthogonal to the sync-path claims. The
_id field is a pydantic private attribute, carried through unvalidated. -/
structure RawProfileDoc where
  mongo_id : Option String
  defaultProfile : Option String
  store : Option (List (String × ProfileStore))
  startDate : Option String
  mills : Option Int
  units : Option String
  created_at : Option String
deriving DecidableEq

/-- Validated NightscoutProfile document (models/nightscout.py):
defaultProfile, store, startDate, mills, units, created_at are required
pydantic fields. -/
structure NightscoutProfile where
  mongo_id : Option String
  defaultProfile : String
  store : List (String × ProfileStore)
  startDate : String
  mills : Int
  units : String
  created_at : String
deriving DecidableEq

/-- Validation NightscoutProfile(**profile_doc): pydantic raises ValidationError when a
required field is missing. -/
def parseNightscoutProfile (d : RawProfileDoc) : Except PyError NightscoutProfile :=
  match d.defaultProfile, d.store, d.startDate, d.mills, d.units, d.created_at with
  | some dp, some st, some sd, some mi, some un, some ca =>
    .ok ⟨d.mongo_id, dp, st, sd, mi, un, ca⟩
  | _, _, _, _, _, _ => .error (.validationError "missing required field")

/-- Python dict lookup over the store mapping. -/
def lookupStore : List (String × ProfileStore) → String → Option ProfileStore
  | [], _ => none
  | (k, v) :: rest, n => if k = n then some v else lookupStore rest n

/-- The default_profile property: self.store[self.defaultProfile], a dict
subscript that raises KeyError when the default name does not key the store. -/
def NightscoutProfile.default_profile (p : NightscoutProfile) :
    Except PyError ProfileStore :=
  match lookupStore p.store p.defaultProfile with
  | some ps => .ok ps
  | none => .error (.keyError p.defaultProfile)

/-- The external data-store collaborator for the client: the transport result
of GET /api/v1/profile. The raw JSON body is modelled as the list of profile
documents (the code takes data[0] when the body is a list; a single-document
body behaves as a one-element list). -/
structure NSEnv where
  profileGetResponse : Except PyError (List RawProfileDoc)

/-- Embedding of NightscoutClient._get_profiles: GET the profile documents, raise ValueError
on an empty body, validate the first document. -/
def get_profiles (env : NSEnv) : Except PyError NightscoutProfile :=
  match env.profileGetResponse with
  | .error e => .error e
  | .ok [] => .error (.valueError "No profiles found in Nightscout")
  | .ok (doc :: _) => parseNightscoutProfile doc

/-- Embedding of NightscoutClient.update_profile (lines 229-279). After the fetch-and-parse
of line 250 succeeds, line 253 evaluates "store" not in current_profile (model
iteration yields field pairs, so the test is True) and line 254 then attempts
dict-style item assignment on the pydantic ProfileStore value, which raises
TypeError; had execution continued, line 256 references the unbound identifier
target_profile (NameError) and line 268 the undefined attribute self.session
instead of the _session it defines (AttributeError). The POST of line 268 is
therefore never reached. The returned Bool records whether a POST was issued.
The profile_data and profile_name arguments are never consulted before the
raise. -/
def update_profile (env : NSEnv) (_profile_data : ProfileStore)
    (_profile_name : Option String) : Except PyError Unit × Bool :=
  match (get_profiles env).bind NightscoutProfile.default_profile with
  | .error e => (.error e, false)
  | .ok _current_profile =>
    (.error (.typeError "ProfileStore object does not support item assignment"),
     false)

/-- Embedding of NightscoutService.sync_profile: model_dump the ProfileStore (the identity
on the value) and delegate to the client update. -/
def sync_profile (env : NSEnv) (profile_store : ProfileStore)
    (profile_name : Option String) : Except PyError Unit × Bool :=
  update_profile env profile_store profile_name

/-- Claim C10: for every environment, profile payload and profile name
(explicit or None), update_profile raises an error before issuing the HTTP
POST, so no invocation ever persists a profile to the remote store. -/
theorem update_profile_always_fails_before_post
    (env : NSEnv) (profile_data : ProfileStore) (profile_name : Option String) :
    (∃ e, (update_profile env profile_data profile_name).1 = .error e) ∧
    (update_profile env profile_data profile_name).2 = false := by
  unfold update_profile
  cases h : (get_profiles env).bind NightscoutProfile.default_profile with
  | error e => exact ⟨⟨e, rfl⟩, rfl⟩
  | ok v =>
    exact ⟨⟨.typeError "ProfileStore object does not support item assignment",
      rfl⟩, rfl⟩

/-- A profile document carrying every required field except defaultProfile
(the test_update_profile_no_default_raises_error fixture). -/
def docNoDefault : RawProfileDoc :=
  { mongo_id := some "test-id"
    defaultProfile := none
    store := some []
    startDate := some "2024-01-01T00:00:00Z"
    mills := some 1234567890
    units := some "mg/dL"
    created_at := some "2024-01-01T00:00:00Z" }

/-- An environment whose GET returns only docNoDefault. -/
def envNoDefault : NSEnv := ⟨.ok [docNoDefault]⟩

/-- Claim C8, evaluated at the failing input: sync_profile with no explicit
name against a document carrying no defaultProfile does fail before any
network write (no POST is issued, the remote store is unchanged), but the
failure is the pydantic ValidationError from parsing the document, not a
dedicated unresolved-name condition: the code never raises any
ProfileNameUnresolved-like error, while its own test expects a ValueError
reading "No profile name specified". -/
theorem sync_profile_no_default_validation_error :
    sync_profile envNoDefault profileEx none
      = (.error (.validationError "missing required field"), false) ∧
    (sync_profile envNoDefault profileEx none).1
      ≠ .error .profileNameUnresolved := by
  constructor
  · rfl
  · intro hc
    cases hc
